import Mathlib

/-!
Shallow embedding of the wasmtime C API's linking, instantiation,
call-boundary, externref/GC, interrupt and table subsystems, as declared in
`crates/c-api/include/wasmtime.h`.  The header under `src/` contains only the
declarations and their documentation; the Rust implementations live outside
the source tree, so the behavior of each operation is modelled from the
specification (and the header's own doc comments) and the claims are settled
against those models.

Conventions of the model:
 - host pointers (`void*`) are natural numbers, with `0` playing NULL;
 - C out-parameters become extra components of the result tuple; when the C
   contract says an out-parameter is left untouched on failure, the model
   takes the cell's previous contents as an argument and returns it unchanged;
 - the tri-state return convention (error pointer / trap out-param / primary
   out-param) becomes a triple of `Option`s.
-/

/-- A host pointer (`void*`); `0` plays the role of NULL. -/
abbrev Ptr := Nat

/-- Modelled from the spec: `wasmtime_error_t`, a host/programmer-level
failure carrying a message. -/
structure Err where
  msg : String
deriving DecidableEq

/-- Modelled from the spec: `wasm_trap_t`, a guest-triggered runtime fault
carrying a message. -/
structure Trap where
  msg : String
deriving DecidableEq

/-- The payload of a non-null `externref`: an opaque host data pointer and an
optional finalizer (identified by a number standing for the C function
pointer). -/
structure ExternRefObj where
  data : Ptr
  finalizer : Option Nat
deriving DecidableEq

/-- Wasm value types relevant to the model. -/
inductive ValType where
  | i32
  | i64
  | funcref
  | externref
deriving DecidableEq

/-- Modelled from the spec: `wasm_val_t`.  A `funcref` value carries an
optional function identifier, an `externref` value an optional payload. -/
inductive Val where
  | i32 (n : Int)
  | i64 (n : Int)
  | funcref (f : Option Nat)
  | externref (r : Option ExternRefObj)
deriving DecidableEq

/-- Whether a value is an `externref` (possibly null). -/
def Val.isExternref : Val → Bool
  | .externref _ => true
  | _ => false

/-- Whether a value inhabits a value type. -/
def valHasType : Val → ValType → Bool
  | .i32 _, .i32 => true
  | .i64 _, .i64 => true
  | .funcref _, .funcref => true
  | .externref _, .externref => true
  | _, _ => false

/-- A function signature: parameter and result types. -/
structure FuncSig where
  params : List ValType
  results : List ValType
deriving DecidableEq

/-- Outcome of running a function body: results on success, or a trap. -/
inductive CallOutcome where
  | success (results : List Val)
  | trapped (t : Trap)

/-- Modelled from the spec: `wasm_func_t`.  A function has a declared
signature, belongs to a store, and its execution behavior is a function from
arguments to a `CallOutcome`. -/
structure Func where
  sig : FuncSig
  store : Nat
  run : List Val → CallOutcome

/-- Modelled from the spec: `wasm_table_t`, specialized to funcref tables: a
growable, bounds-checked container of optional functions, with an element
signature and an optional maximum size. -/
structure Table where
  elemSig : FuncSig
  max : Option Nat
  elems : List (Option Func)

/-- Modelled from the spec: `wasm_tabletype_t` for funcref tables. -/
structure TableType where
  elemSig : FuncSig
  min : Nat
  max : Option Nat

/-- Modelled from the spec: `wasm_extern_t`, the tagged union of importable
or exportable items. -/
inductive ExternVal where
  | func (f : Func)
  | table (t : Table)
  | global (ty : ValType) (v : Val)
  | memory (m : Nat)

/-- Whether an extern item is a memory. -/
def ExternVal.isMemory : ExternVal → Bool
  | .memory _ => true
  | _ => false

/-- Modelled from the spec: `wasm_externtype_t`, the type of an extern item. -/
inductive ExternType where
  | funcT (sig : FuncSig)
  | tableT (sig : FuncSig)
  | globalT (ty : ValType)
  | memoryT
deriving DecidableEq

/-- The type of an extern item. -/
def externTypeOf : ExternVal → ExternType
  | .func f => .funcT f.sig
  | .table t => .tableT t.elemSig
  | .global ty _ => .globalT ty
  | .memory _ => .memoryT

/-- Modelled from the spec: `wasm_instance_t`, a materialized module with a
live export list fixed at instantiation. -/
structure Instance where
  exports : List (String × ExternVal)

/-- Modelled from the spec: `wasm_module_t`, an immutable compiled artifact
with an import signature list.  Instantiation-time behavior is abstracted:
`start` records whether the start routine traps, `exports` the export items
an instantiation materializes. -/
structure WasmModule where
  imports : List (String × String × ExternType)
  start : Option Trap
  exports : List (String × ExternVal)

/-- Modelled from the spec: engine/store configuration; only the field the
claims need is retained. -/
structure Config where
  interruptable : Bool
deriving DecidableEq

/-- Modelled from the spec: `wasm_store_t`, the isolation arena owning the
externref table (keyed by identifiers) and the reachability root set found
by the store-scoped scan. -/
structure Store where
  sid : Nat
  config : Config
  externrefs : List (Nat × ExternRefObj)
  roots : List Nat
deriving DecidableEq

/-- Modelled from the spec: `wasmtime_interrupt_handle_t`, a cancellation
token bound to one store. -/
structure InterruptHandle where
  store : Nat
deriving DecidableEq

/-- Modelled from the spec: `wasmtime_linker_t`, a name-keyed registry
of importable items for one store, with a shadowing policy.  A binding is
consed to the front, so lookups see the newest definition. -/
structure Linker where
  sid : Nat
  allowShadowing : Bool
  registry : List ((String × String) × ExternVal)

/-- Modelled from the spec: a single recorded finalizer invocation during
GC: which externref (by id), which finalizer, and the data pointer passed. -/
structure FinCall where
  ref : Nat
  fin : Nat
  arg : Ptr
deriving DecidableEq

/-- `wasmtime_config_interruptable_set`: enables or disables interruption. -/
def wasmtime_config_interruptable_set (c : Config) (b : Bool) : Config :=
  { c with interruptable := b }

/-- Modelled from the spec: `wasmtime_interrupt_handle_new` returns a handle
to the store only when the store's configuration enables interruption, and
NULL otherwise. -/
def wasmtime_interrupt_handle_new (s : Store) : Option InterruptHandle :=
  if s.config.interruptable then some ⟨s.sid⟩ else none

/-- Modelled from the spec: `wasmtime_externref_new` wraps a host pointer in
a fresh non-null `externref` value without a finalizer. -/
def wasmtime_externref_new (data : Ptr) : Val :=
  .externref (some ⟨data, none⟩)

/-- Modelled from the spec: `wasmtime_externref_new_with_finalizer` wraps a
host pointer in a fresh non-null `externref` value with the finalizer. -/
def wasmtime_externref_new_with_finalizer (data : Ptr) (fin : Nat) : Val :=
  .externref (some ⟨data, some fin⟩)

/-- Modelled from the spec: `wasmtime_externref_data`.  The `datap`
argument is the previous contents of the out-cell; the result is the C
boolean return paired with the cell's contents after the call (unchanged
when the value is not an externref, NULL for a null externref). -/
def wasmtime_externref_data (val : Val) (datap : Ptr) : Bool × Ptr :=
  match val with
  | .externref (some r) => (true, r.data)
  | .externref none => (true, 0)
  | _ => (false, datap)

/-- Modelled from the spec: `wasmtime_linker_new` creates a linker over the
store with shadowing disabled by default and an empty registry. -/
def wasmtime_linker_new (s : Store) : Linker :=
  ⟨s.sid, false, []⟩

/-- `wasmtime_linker_allow_shadowing`: toggles the shadowing policy. -/
def wasmtime_linker_allow_shadowing (l : Linker) (b : Bool) : Linker :=
  { l with allowShadowing := b }

/-- First binding of the `(module_name, field_name)` pair in a registry. -/
def findBinding : List ((String × String) × ExternVal) → String → String → Option ExternVal
  | [], _, _ => none
  | (k, v) :: rest, m, n => if k = (m, n) then some v else findBinding rest m n

/-- Modelled from the spec: `wasmtime_linker_define`.  Redefining a bound
pair with shadowing disabled fails with an error and leaves the registry
unchanged; otherwise the new binding is installed (in front, so it shadows
any previous one for subsequent lookups). -/
def wasmtime_linker_define (l : Linker) (m n : String) (item : ExternVal) :
    Option Err × Linker :=
  match findBinding l.registry m n with
  | some _ =>
    if l.allowShadowing then
      (none, { l with registry := ((m, n), item) :: l.registry })
    else
      (some ⟨"import defined twice"⟩, l)
  | none => (none, { l with registry := ((m, n), item) :: l.registry })

/-- Resolves a module's import list against the linker registry: an unknown
name or an item of the wrong type is a host-level error. -/
def resolveImports (l : Linker) :
    List (String × String × ExternType) → Except Err (List ExternVal)
  | [] => .ok []
  | (m, n, ty) :: rest =>
    match findBinding l.registry m n with
    | none => .error ⟨"unknown import"⟩
    | some item =>
      if externTypeOf item = ty then
        (resolveImports l rest).map (fun items => item :: items)
      else
        .error ⟨"incompatible import type"⟩

/-- The three mutually exclusive outcomes of instantiation. -/
inductive InstOutcome where
  | ok (i : Instance)
  | trapped (t : Trap)
  | failed (e : Err)

/-- Modelled from the spec: the core of linker instantiation — resolve every
module import against the registry (failure is an Error), then run the start
routine (its fault is a Trap), else materialize the instance. -/
def linkerInstantiateCore (l : Linker) (m : WasmModule) : InstOutcome :=
  match resolveImports l m.imports with
  | .error e => .failed e
  | .ok _ =>
    match m.start with
    | some t => .trapped t
    | none => .ok ⟨m.exports⟩

/-- Modelled from the spec: `wasmtime_linker_instantiate` renders the core
outcome into the C tri-state of (error return, trap out-param, instance
out-param). -/
def wasmtime_linker_instantiate (l : Linker) (m : WasmModule) :
    Option Err × Option Trap × Option Instance :=
  match linkerInstantiateCore l m with
  | .ok i => (none, none, some i)
  | .trapped t => (none, some t, none)
  | .failed e => (some e, none, none)

/-- Positional import typecheck used by `wasmtime_instance_new`: the list of
given items must match the module's declared import types in length and
pointwise in type. -/
def typecheckImports (given : List ExternVal)
    (decl : List (String × String × ExternType)) : Bool :=
  decide (given.length = decl.length) &&
    (given.zip decl).all (fun p => decide (externTypeOf p.1 = p.2.2.2))

/-- Modelled from the spec: `wasmtime_instance_new` — a link-level problem
(wrong number or type of imports) is an Error; a start-routine fault is a
Trap; otherwise the instance is produced.  Exactly one channel is non-null. -/
def wasmtime_instance_new (m : WasmModule) (imports : List ExternVal) :
    Option Err × Option Trap × Option Instance :=
  if typecheckImports imports m.imports then
    match m.start with
    | some t => (none, some t, none)
    | none => (none, none, some ⟨m.exports⟩)
  else
    (some ⟨"wrong imports"⟩, none, none)

/-- Modelled from the spec: `wasmtime_func_call` — wrong argument count,
wrong argument types or a wrong result count is an Error; a fault during
execution is a Trap; otherwise the results are written. -/
def wasmtime_func_call (f : Func) (args : List Val) (numResults : Nat) :
    Option Err × Option Trap × Option (List Val) :=
  if decide (args.length = f.sig.params.length) &&
      decide (numResults = f.sig.results.length) &&
      (args.zip f.sig.params).all (fun p => valHasType p.1 p.2) then
    match f.run args with
    | .success rs => (none, none, some rs)
    | .trapped t => (none, some t, none)
  else
    (some ⟨"invalid arguments"⟩, none, none)

/-- The externrefs of a store surviving a reachability scan: those whose id
is in the root set. -/
def gcKeep (roots : List Nat) (l : List (Nat × ExternRefObj)) :
    List (Nat × ExternRefObj) :=
  l.filter (fun p => decide (p.1 ∈ roots))

/-- The finalizer invocations a reachability scan performs: one per
unreachable externref that has a finalizer, in table order, each applied to
that externref's data pointer. -/
def gcLog (roots : List Nat) : List (Nat × ExternRefObj) → List FinCall
  | [] => []
  | p :: rest =>
    if p.1 ∈ roots then gcLog roots rest
    else
      match p.2.finalizer with
      | some f => ⟨p.1, f, p.2.data⟩ :: gcLog roots rest
      | none => gcLog roots rest

/-- Modelled from the spec: `wasmtime_store_gc` performs a synchronous,
store-scoped reachability scan: unreachable externrefs are removed from the
store and their finalizers invoked (the returned log records the
invocations, in order, completed before the call returns). -/
def wasmtime_store_gc (s : Store) : Store × List FinCall :=
  ({ s with externrefs := gcKeep s.roots s.externrefs },
   gcLog s.roots s.externrefs)

/-- Modelled from the spec: running `wasmtime_store_gc` against one store of
a world of stores: only the store with the given id is scanned. -/
def wasmtime_store_gc_all (w : List Store) (sid : Nat) : List Store :=
  w.map (fun s => if s.sid = sid then (wasmtime_store_gc s).1 else s)

/-- Modelled from the spec: `wasmtime_funcref_table_new` creates a table of
the type's minimum size filled with the initialization value; an
initialization function whose signature does not match the element type is
an error. -/
def wasmtime_funcref_table_new (ty : TableType) (init : Option Func) :
    Option Err × Option Table :=
  match init with
  | some f =>
    if f.sig = ty.elemSig then
      (none, some ⟨ty.elemSig, ty.max, List.replicate ty.min (some f)⟩)
    else
      (some ⟨"init function type mismatch"⟩, none)
  | none => (none, some ⟨ty.elemSig, ty.max, List.replicate ty.min none⟩)

/-- Modelled from the spec: `wasmtime_funcref_table_get` returns whether the
index is in bounds, and the element there when it is. -/
def wasmtime_funcref_table_get (t : Table) (i : Nat) : Bool × Option Func :=
  if h : i < t.elems.length then (true, t.elems.get ⟨i, h⟩) else (false, none)

/-- Modelled from the spec: `wasmtime_funcref_table_set` — an out-of-bounds
index or a value whose signature is incompatible with the table's element
type is an error that leaves the table unmodified. -/
def wasmtime_funcref_table_set (t : Table) (i : Nat) (v : Option Func) :
    Option Err × Table :=
  if i < t.elems.length then
    match v with
    | some f =>
      if f.sig = t.elemSig then
        (none, { t with elems := t.elems.set i (some f) })
      else
        (some ⟨"value type mismatch"⟩, t)
    | none => (none, { t with elems := t.elems.set i none })
  else
    (some ⟨"index out of bounds"⟩, t)

/-- Modelled from the spec: `wasmtime_funcref_table_grow` — on success the
previous size is reported through the out-cell and `delta` copies of the
initialization value are appended; exceeding the maximum or an
initialization value of the wrong signature is an error that leaves both the
table and the out-cell (modelled by `prev`) unmodified.  The checks: the
initialization value's signature must be compatible with the element type
and the new size must not exceed the maximum. -/
def growOk (t : Table) (init : Option Func) (delta : Nat) : Bool :=
  (match init with
    | some f => decide (f.sig = t.elemSig)
    | none => true) &&
  (match t.max with
    | some mx => decide (t.elems.length + delta ≤ mx)
    | none => true)

def wasmtime_funcref_table_grow (t : Table) (delta : Nat) (init : Option Func)
    (prev : Nat) : Option Err × Nat × Table :=
  if growOk t init delta then
    (none, t.elems.length, { t with elems := t.elems ++ List.replicate delta init })
  else
    (some ⟨"failed to grow table"⟩, prev, t)

/-- Modelled from the spec: `wasmtime_caller_t`, the transient context of one
host-callback invocation, referencing the calling instance and its store. -/
structure Caller where
  inst : Instance
  store : Nat

/-- First export of the given name in an instance's export list. -/
def lookupExport : List (String × ExternVal) → String → Option ExternVal
  | [], _ => none
  | (n, e) :: rest, name => if n = name then some e else lookupExport rest name

/-- Modelled from the spec: `wasmtime_caller_export_get` looks the name up in
the calling instance's exports but intentionally resolves only memory-like
exports; any other kind of export yields NULL. -/
def wasmtime_caller_export_get (c : Caller) (name : String) : Option ExternVal :=
  match lookupExport c.inst.exports name with
  | some e => if e.isMemory then some e else none
  | none => none

/-- Modelled from the spec: the text-to-binary translator is an external
collaborator — a pure function from text to binary or Error, whose
successful outputs are accepted by the validator.  Both functions and that
contract are bundled here because the translator's code is outside this
repository. -/
structure WatTranslator where
  parse : List Nat → Except Err (List Nat)
  validate : List Nat → Option Err
  parse_valid : ∀ wat bin, parse wat = .ok bin → validate bin = none

/-- Modelled from the spec: `wasmtime_wat2wasm` — on translator success the
output byte vector is filled with the binary and NULL is returned; on parse
failure the error is returned and the output byte vector (whose previous
contents are modelled by `ret`) is not touched. -/
def wasmtime_wat2wasm (T : WatTranslator) (wat ret : List Nat) :
    Option Err × List Nat :=
  match T.parse wat with
  | .ok bin => (none, bin)
  | .error e => (some e, ret)

/-- A concrete store for evaluating the GC model: externref 1 (data 42,
finalizer 5) is unreachable, externref 2 (data 10, finalizer 6) is rooted. -/
def modelStoreA : Store :=
  ⟨0, ⟨false⟩, [(1, ⟨42, some 5⟩), (2, ⟨10, some 6⟩)], [2]⟩

/-- A second concrete store, belonging to a different store id, for
evaluating that GC of one store leaves other stores untouched. -/
def modelStoreB : Store :=
  ⟨1, ⟨false⟩, [(3, ⟨77, some 9⟩)], []⟩

/-- A concrete instance of the translator contract, for evaluating the
`wasmtime_wat2wasm` model at concrete inputs: one recognized text `[1]`
translated to the binary `[7]`, everything else a parse failure. -/
def modelWatTranslator : WatTranslator where
  parse := fun w => if w = [1] then Except.ok [7] else Except.error ⟨"parse failure"⟩
  validate := fun b => if b = [7] then none else some ⟨"invalid module"⟩
  parse_valid := by
    intro wat bin h
    dsimp only at h ⊢
    by_cases hw : wat = [1]
    · rw [if_pos hw] at h
      injection h with h2
      rw [← h2]
      simp
    · rw [if_neg hw] at h
      cases h

/-- Whether exactly one of the three output channels of the tri-state return
convention is non-null. -/
def triStateExclusive {A B C : Type} (a : Option A) (b : Option B) (c : Option C) : Bool :=
  match a, b, c with
  | some _, none, none => true
  | none, some _, none => true
  | none, none, some _ => true
  | _, _, _ => false

/-- Claim C1: every invocation of `wasmtime_linker_instantiate`,
`wasmtime_instance_new` and `wasmtime_func_call` produces exactly one
non-null channel among {Error, Trap, primary output}: never two non-null
channels simultaneously, and never all three null. -/
theorem tri_state_exclusive_for_instantiate_and_call :
    (∀ (l : Linker) (m : WasmModule),
      triStateExclusive (wasmtime_linker_instantiate l m).1
        (wasmtime_linker_instantiate l m).2.1
        (wasmtime_linker_instantiate l m).2.2 = true)
    ∧ (∀ (m : WasmModule) (imports : List ExternVal),
      triStateExclusive (wasmtime_instance_new m imports).1
        (wasmtime_instance_new m imports).2.1
        (wasmtime_instance_new m imports).2.2 = true)
    ∧ (∀ (f : Func) (args : List Val) (n : Nat),
      triStateExclusive (wasmtime_func_call f args n).1
        (wasmtime_func_call f args n).2.1
        (wasmtime_func_call f args n).2.2 = true) := by
  refine ⟨?_, ?_, ?_⟩
  · intro l m
    rcases h : linkerInstantiateCore l m with i | t | e <;>
      simp [wasmtime_linker_instantiate, h, triStateExclusive]
  · intro m imports
    rcases hs : m.start with _ | t <;>
      by_cases h : typecheckImports imports m.imports <;>
        simp [wasmtime_instance_new, h, hs, triStateExclusive]
  · intro f args n
    by_cases h : (decide (args.length = f.sig.params.length) &&
        decide (n = f.sig.results.length) &&
        (args.zip f.sig.params).all fun p => valHasType p.1 p.2) = true
    · rcases hr : f.run args with rs | t <;>
        simp [wasmtime_func_call, h, hr, triStateExclusive]
    · simp [wasmtime_func_call, h, triStateExclusive]

/-- Claim C2: with shadowing disabled, a second `wasmtime_linker_define` for
an already-bound `(module_name, field_name)` pair returns a non-null Error
and leaves the linker (in particular its registry) unchanged, so the pair
remains bound to the first definition; a fresh linker has shadowing
disabled by default. -/
theorem linker_define_no_shadowing_atomic (l : Linker) (m n : String)
    (i1 i2 : ExternVal)
    (hshadow : l.allowShadowing = false)
    (hbound : findBinding l.registry m n = some i1) :
    (wasmtime_linker_define l m n i2).1.isSome = true
    ∧ (wasmtime_linker_define l m n i2).2 = l
    ∧ findBinding (wasmtime_linker_define l m n i2).2.registry m n = some i1
    ∧ ∀ s, (wasmtime_linker_new s).allowShadowing = false := by
  simp [wasmtime_linker_define, hbound, hshadow, wasmtime_linker_new]

/-- Witness for claim C2 at a concrete linker with one binding. -/
theorem linker_define_no_shadowing_atomic_witness :
    (wasmtime_linker_define ⟨0, false, [(("a", "b"), .memory 0)]⟩ "a" "b" (.memory 1)).1.isSome = true
    ∧ (wasmtime_linker_define ⟨0, false, [(("a", "b"), .memory 0)]⟩ "a" "b" (.memory 1)).2
        = ⟨0, false, [(("a", "b"), .memory 0)]⟩
    ∧ findBinding (wasmtime_linker_define ⟨0, false, [(("a", "b"), .memory 0)]⟩ "a" "b"
        (.memory 1)).2.registry "a" "b" = some (.memory 0)
    ∧ ∀ s, (wasmtime_linker_new s).allowShadowing = false :=
  linker_define_no_shadowing_atomic ⟨0, false, [(("a", "b"), .memory 0)]⟩ "a" "b"
    (.memory 0) (.memory 1) rfl rfl

/-- Claim C4: extracting the data of an externref created from a host
pointer (with or without a finalizer) yields that pointer exactly. -/
theorem externref_data_of_new_roundtrip :
    ∀ (ptr fin datap : Ptr),
      wasmtime_externref_data (wasmtime_externref_new_with_finalizer ptr fin) datap
          = (true, ptr)
      ∧ wasmtime_externref_data (wasmtime_externref_new ptr) datap = (true, ptr) := by
  intro ptr fin datap
  exact ⟨rfl, rfl⟩

/-- Claim C8: an interrupt handle exists exactly when the store's
configuration enables interruption; with interruption disabled,
`wasmtime_interrupt_handle_new` yields no handle. -/
theorem interrupt_handle_requires_interruptable_config :
    ∀ (s : Store) (b : Bool),
      (wasmtime_interrupt_handle_new s).isSome = s.config.interruptable
      ∧ (wasmtime_interrupt_handle_new
          { s with config := wasmtime_config_interruptable_set s.config b }).isSome = b := by
  intro s b
  constructor
  · cases hc : s.config.interruptable <;>
      simp [wasmtime_interrupt_handle_new, hc]
  · cases b <;>
      simp [wasmtime_interrupt_handle_new, wasmtime_config_interruptable_set]

/-- Claim C10: `wasmtime_externref_data` on a value that is not an externref
returns false and leaves the out-cell unmodified; on a null externref it
writes NULL and returns true. -/
theorem externref_data_non_externref_and_null (v : Val) (datap : Ptr)
    (h : v.isExternref = false) :
    wasmtime_externref_data v datap = (false, datap)
    ∧ ∀ d2 : Ptr, wasmtime_externref_data (Val.externref none) d2 = (true, 0) := by
  constructor
  · cases v <;> simp_all [Val.isExternref, wasmtime_externref_data]
  · intro d2
    rfl

/-- Witness for claim C10 at a concrete non-externref value and a concrete
null externref. -/
theorem externref_data_non_externref_and_null_witness :
    wasmtime_externref_data (Val.i32 7) 9 = (false, 9)
    ∧ wasmtime_externref_data (Val.externref none) 3 = (true, 0) :=
  ⟨(externref_data_non_externref_and_null (Val.i32 7) 9 rfl).1,
   (externref_data_non_externref_and_null (Val.i32 7) 9 rfl).2 3⟩

/-- Claim C7: `wasmtime_caller_export_get` resolves only memory-like
exports: a lookup of any non-memory export yields no item even when the
calling instance exports it under that name, and any item it does return is
a memory. -/
theorem caller_export_get_memory_only (c : Caller) (name : String) :
    (∀ e, lookupExport c.inst.exports name = some e → e.isMemory = false →
      wasmtime_caller_export_get c name = none)
    ∧ (∀ e, wasmtime_caller_export_get c name = some e → e.isMemory = true) := by
  constructor
  · intro e hl hm
    simp [wasmtime_caller_export_get, hl, hm]
  · intro e he
    unfold wasmtime_caller_export_get at he
    cases hl : lookupExport c.inst.exports name with
    | none => simp [hl] at he
    | some e2 =>
      rw [hl] at he
      dsimp only at he
      by_cases hm : e2.isMemory = true
      · rw [if_pos hm] at he
        injection he with h2
        rw [← h2]
        exact hm
      · rw [if_neg hm] at he
        cases he

/-- Witness for claim C7: a caller whose instance exports a global under
"g"; looking "g" up through the caller yields nothing. -/
theorem caller_export_get_memory_only_witness :
    wasmtime_caller_export_get ⟨⟨[("g", ExternVal.global ValType.i32 (Val.i32 0))]⟩, 0⟩ "g"
      = none :=
  (caller_export_get_memory_only ⟨⟨[("g", ExternVal.global ValType.i32 (Val.i32 0))]⟩, 0⟩
    "g").1 (ExternVal.global ValType.i32 (Val.i32 0)) rfl rfl

/-- Claim C9: when the translator fails to parse, `wasmtime_wat2wasm`
returns a non-null Error and the output byte vector keeps its previous
contents; on success it returns NULL and fills the output with a binary the
validator accepts. -/
theorem wat2wasm_frame_and_validity :
    ∀ (T : WatTranslator) (wat ret : List Nat),
      (∀ e, T.parse wat = .error e → wasmtime_wat2wasm T wat ret = (some e, ret))
      ∧ (∀ bin, T.parse wat = .ok bin →
          wasmtime_wat2wasm T wat ret = (none, bin) ∧ T.validate bin = none) := by
  intro T wat ret
  constructor
  · intro e he
    simp [wasmtime_wat2wasm, he]
  · intro bin hb
    exact ⟨by simp [wasmtime_wat2wasm, hb], T.parse_valid wat bin hb⟩

/-- Witness for claim C9 at the concrete translator: success fills the
output with a validated binary, failure leaves the output untouched. -/
theorem wat2wasm_frame_and_validity_witness :
    wasmtime_wat2wasm modelWatTranslator [1] [9] = (none, [7])
    ∧ modelWatTranslator.validate [7] = none
    ∧ wasmtime_wat2wasm modelWatTranslator [2] [9] = (some ⟨"parse failure"⟩, [9]) :=
  ⟨((wat2wasm_frame_and_validity modelWatTranslator [1] [9]).2 [7] rfl).1,
   ((wat2wasm_frame_and_validity modelWatTranslator [1] [9]).2 [7] rfl).2,
   (wat2wasm_frame_and_validity modelWatTranslator [2] [9]).1 ⟨"parse failure"⟩ rfl⟩

/-- Claim C6: whenever `wasmtime_funcref_table_set` or
`wasmtime_funcref_table_grow` fails its bounds or type check and returns a
non-null Error, the table (and for grow also the previous-size out-cell) is
exactly as it was before the call. -/
theorem table_set_grow_atomic_on_error (t : Table) (i : Nat)
    (v ig : Option Func) (d prev : Nat) :
    ((wasmtime_funcref_table_set t i v).1.isSome = true →
      (wasmtime_funcref_table_set t i v).2 = t)
    ∧ ((wasmtime_funcref_table_grow t d ig prev).1.isSome = true →
      (wasmtime_funcref_table_grow t d ig prev).2.2 = t
      ∧ (wasmtime_funcref_table_grow t d ig prev).2.1 = prev) := by
  constructor
  · intro h
    unfold wasmtime_funcref_table_set at h ⊢
    by_cases hb : i < t.elems.length
    · cases v with
      | none => simp [hb] at h
      | some f =>
        by_cases hs : f.sig = t.elemSig
        · simp [hb, hs] at h
        · simp [hb, hs]
    · simp [hb]
  · intro h
    unfold wasmtime_funcref_table_grow at h ⊢
    by_cases hc : growOk t ig d = true
    · rw [if_pos hc] at h
      simp at h
    · simp [if_neg hc]

/-- Witness for claim C6: a failed out-of-bounds set and a failed
over-maximum grow on a concrete empty table with maximum size 0 leave the
table and the out-cell unchanged. -/
theorem table_set_grow_atomic_on_error_witness :
    (wasmtime_funcref_table_set ⟨⟨[], []⟩, some 0, []⟩ 0 none).2 = ⟨⟨[], []⟩, some 0, []⟩
    ∧ (wasmtime_funcref_table_grow ⟨⟨[], []⟩, some 0, []⟩ 1 none 7).2.2
        = ⟨⟨[], []⟩, some 0, []⟩
    ∧ (wasmtime_funcref_table_grow ⟨⟨[], []⟩, some 0, []⟩ 1 none 7).2.1 = 7 :=
  ⟨(table_set_grow_atomic_on_error ⟨⟨[], []⟩, some 0, []⟩ 0 none none 1 7).1 rfl,
   ((table_set_grow_atomic_on_error ⟨⟨[], []⟩, some 0, []⟩ 0 none none 1 7).2 rfl).1,
   ((table_set_grow_atomic_on_error ⟨⟨[], []⟩, some 0, []⟩ 0 none none 1 7).2 rfl).2⟩

/-- Claim C5: a funcref table created with initial size N and successfully
grown by delta d reports previous size N through the out-cell; afterwards
`wasmtime_funcref_table_get` reports in-bounds at every index < N+d and
out-of-bounds at N+d and beyond. -/
theorem funcref_table_new_grow_get_bounds (ty : TableType) (i0 ig : Option Func)
    (t t2 : Table) (d prev p2 : Nat)
    (hnew : wasmtime_funcref_table_new ty i0 = (none, some t))
    (hgrow : wasmtime_funcref_table_grow t d ig prev = (none, p2, t2)) :
    p2 = ty.min
    ∧ (∀ i, i < ty.min + d → (wasmtime_funcref_table_get t2 i).1 = true)
    ∧ (∀ i, ty.min + d ≤ i → (wasmtime_funcref_table_get t2 i).1 = false) := by
  have hlen : t.elems.length = ty.min := by
    cases i0 with
    | none =>
      unfold wasmtime_funcref_table_new at hnew
      simp at hnew
      rw [← hnew]
      simp
    | some f =>
      unfold wasmtime_funcref_table_new at hnew
      dsimp only at hnew
      by_cases hs : f.sig = ty.elemSig
      · rw [if_pos hs] at hnew
        simp at hnew
        rw [← hnew]
        simp
      · rw [if_neg hs] at hnew
        simp at hnew
  unfold wasmtime_funcref_table_grow at hgrow
  by_cases hc : growOk t ig d = true
  · rw [if_pos hc] at hgrow
    have h1 := congrArg (fun x => x.2.1) hgrow
    have h2 := congrArg (fun x => x.2.2) hgrow
    dsimp at h1 h2
    have hlen2 : t2.elems.length = ty.min + d := by
      rw [← h2]
      simp [hlen]
    refine ⟨by rw [← h1, hlen], ?_, ?_⟩
    · intro i hi
      have hb : i < t2.elems.length := by rw [hlen2]; exact hi
      simp [wasmtime_funcref_table_get, hb]
    · intro i hi
      have hb : ¬ i < t2.elems.length := by rw [hlen2]; omega
      simp [wasmtime_funcref_table_get, hb]
  · rw [if_neg hc] at hgrow
    simp at hgrow

/-- Witness for claim C5: a table of initial size 2 grown by 3 reports
previous size 2, is in bounds at index 4 and out of bounds at index 5. -/
theorem funcref_table_new_grow_get_bounds_witness :
    (2 : Nat) = TableType.min ⟨⟨[], []⟩, 2, none⟩
    ∧ (wasmtime_funcref_table_get ⟨⟨[], []⟩, none, [none, none, none, none, none]⟩ 4).1 = true
    ∧ (wasmtime_funcref_table_get ⟨⟨[], []⟩, none, [none, none, none, none, none]⟩ 5).1 = false :=
  ⟨(funcref_table_new_grow_get_bounds ⟨⟨[], []⟩, 2, none⟩ none none
      ⟨⟨[], []⟩, none, [none, none]⟩ ⟨⟨[], []⟩, none, [none, none, none, none, none]⟩
      3 0 2 rfl rfl).1,
   (funcref_table_new_grow_get_bounds ⟨⟨[], []⟩, 2, none⟩ none none
      ⟨⟨[], []⟩, none, [none, none]⟩ ⟨⟨[], []⟩, none, [none, none, none, none, none]⟩
      3 0 2 rfl rfl).2.1 4 (by decide),
   (funcref_table_new_grow_get_bounds ⟨⟨[], []⟩, 2, none⟩ none none
      ⟨⟨[], []⟩, none, [none, none]⟩ ⟨⟨[], []⟩, none, [none, none, none, none, none]⟩
      3 0 2 rfl rfl).2.2 5 (by decide)⟩

/-- Every finalizer invocation the scan records is for an unreachable
externref: its id is not in the root set. -/
theorem gcLog_ref_not_root (roots : List Nat) (l : List (Nat × ExternRefObj)) :
    ∀ c ∈ gcLog roots l, c.ref ∉ roots := by
  induction l with
  | nil =>
    intro c hc
    simp [gcLog] at hc
  | cons p rest ih =>
    intro c hc
    simp only [gcLog] at hc
    by_cases h : p.1 ∈ roots
    · rw [if_pos h] at hc
      exact ih c hc
    · rw [if_neg h] at hc
      cases hf : p.2.finalizer with
      | none =>
        simp only [hf] at hc
        exact ih c hc
      | some f =>
        simp only [hf] at hc
        rcases List.mem_cons.mp hc with rfl | hc2
        · exact h
        · exact ih c hc2

/-- An id that does not occur in the externref table produces no finalizer
invocation. -/
theorem gcLog_filter_of_not_mem (roots : List Nat) (id : Nat)
    (l : List (Nat × ExternRefObj)) (hid : id ∉ l.map Prod.fst) :
    (gcLog roots l).filter (fun c => decide (c.ref = id)) = [] := by
  induction l with
  | nil => simp [gcLog]
  | cons p rest ih =>
    rw [List.map_cons, List.mem_cons] at hid
    push_neg at hid
    have hne : ¬ p.1 = id := fun e => hid.1 e.symm
    simp only [gcLog]
    by_cases h : p.1 ∈ roots
    · rw [if_pos h]
      exact ih hid.2
    · rw [if_neg h]
      cases hf : p.2.finalizer with
      | none =>
        simp only [hf]
        exact ih hid.2
      | some f =>
        simp only [hf]
        simpa [List.filter_cons, hne] using ih hid.2

/-- An unreachable externref with a finalizer is finalized exactly once by
the scan, with its own data pointer, provided the table's ids are distinct:
the invocation log filtered to its id is exactly one entry. -/
theorem gcLog_filter_of_mem (roots : List Nat) (id : Nat) (obj : ExternRefObj)
    (f : Nat) (l : List (Nat × ExternRefObj))
    (hnd : (l.map Prod.fst).Nodup) (hmem : (id, obj) ∈ l)
    (hroot : id ∉ roots) (hfin : obj.finalizer = some f) :
    (gcLog roots l).filter (fun c => decide (c.ref = id)) = [⟨id, f, obj.data⟩] := by
  induction l with
  | nil => cases hmem
  | cons p rest ih =>
    rw [List.map_cons, List.nodup_cons] at hnd
    rcases List.mem_cons.mp hmem with heq | hmem2
    · subst heq
      simp only [gcLog]
      rw [if_neg hroot]
      simp only [hfin]
      have h0 := gcLog_filter_of_not_mem roots id rest hnd.1
      simp [List.filter_cons, h0]
    · have hidmem : id ∈ rest.map Prod.fst := List.mem_map_of_mem Prod.fst hmem2
      have hne : ¬ p.1 = id := fun e => hnd.1 (e ▸ hidmem)
      simp only [gcLog]
      by_cases h : p.1 ∈ roots
      · rw [if_pos h]
        exact ih hnd.2 hmem2
      · rw [if_neg h]
        cases hf : p.2.finalizer with
        | none =>
          simp only [hf]
          exact ih hnd.2 hmem2
        | some g =>
          simp only [hf]
          simpa [List.filter_cons, hne] using ih hnd.2 hmem2

/-- A rooted id produces no finalizer invocation. -/
theorem gcLog_filter_of_root (roots : List Nat) (l : List (Nat × ExternRefObj))
    (id : Nat) (h : id ∈ roots) :
    (gcLog roots l).filter (fun c => decide (c.ref = id)) = [] := by
  rw [List.filter_eq_nil_iff]
  intro c hc
  simp only [decide_eq_true_eq]
  exact fun e => (gcLog_ref_not_root roots l c hc) (e ▸ h)

/-- A rooted externref survives the scan. -/
theorem mem_gcKeep_of_root (roots : List Nat) (l : List (Nat × ExternRefObj))
    (id : Nat) (obj : ExternRefObj) (hmem : (id, obj) ∈ l) (h : id ∈ roots) :
    (id, obj) ∈ gcKeep roots l := by
  simp [gcKeep, List.mem_filter]
  exact ⟨hmem, h⟩

/-- A second scan over the survivors of a first scan invokes no finalizer:
everything kept is rooted. -/
theorem gcLog_of_gcKeep (roots : List Nat) (l : List (Nat × ExternRefObj)) :
    gcLog roots (gcKeep roots l) = [] := by
  induction l with
  | nil => rfl
  | cons p rest ih =>
    by_cases h : p.1 ∈ roots
    · simp only [gcKeep, List.filter_cons] at ih ⊢
      simp [h, gcLog, ih]
    · simp only [gcKeep, List.filter_cons] at ih ⊢
      simp [h, ih]

/-- Claim C3: `wasmtime_store_gc` invokes the finalizer of each externref
found unreachable exactly once, with that externref's data pointer,
synchronously before returning (the invocation log is part of the call's
result); a rooted externref is not finalized and survives; a second scan
finalizes nothing again; and collecting one store never touches a store
with a different id. -/
theorem store_gc_finalizes_unreachable_exactly_once (s : Store) (id : Nat)
    (obj : ExternRefObj) (f : Nat)
    (hnd : (s.externrefs.map Prod.fst).Nodup)
    (hmem : (id, obj) ∈ s.externrefs) :
    (id ∉ s.roots → obj.finalizer = some f →
      (wasmtime_store_gc s).2.filter (fun c => decide (c.ref = id)) = [⟨id, f, obj.data⟩])
    ∧ (id ∈ s.roots →
      (wasmtime_store_gc s).2.filter (fun c => decide (c.ref = id)) = []
      ∧ (id, obj) ∈ (wasmtime_store_gc s).1.externrefs)
    ∧ (wasmtime_store_gc (wasmtime_store_gc s).1).2 = []
    ∧ (∀ (w : List Store) (sid : Nat) (t : Store),
        t ∈ w → t.sid ≠ sid → t ∈ wasmtime_store_gc_all w sid) := by
  refine ⟨?_, ?_, ?_, ?_⟩
  · intro hroot hfin
    exact gcLog_filter_of_mem s.roots id obj f s.externrefs hnd hmem hroot hfin
  · intro hroot
    exact ⟨gcLog_filter_of_root s.roots s.externrefs id hroot,
           mem_gcKeep_of_root s.roots s.externrefs id obj hmem hroot⟩
  · exact gcLog_of_gcKeep s.roots s.externrefs
  · intro w sid t htw hne
    unfold wasmtime_store_gc_all
    have h2 := List.mem_map_of_mem
      (fun u => if u.sid = sid then (wasmtime_store_gc u).1 else u) htw
    dsimp only at h2
    rw [if_neg hne] at h2
    exact h2

/-- Witness for claim C3 at the concrete stores: the unreachable externref 1
is finalized exactly once with its data pointer, the rooted externref 2 is
neither finalized nor removed, a second collection finalizes nothing, and
collecting store 0 leaves the other store untouched. -/
theorem store_gc_finalizes_unreachable_exactly_once_witness :
    (wasmtime_store_gc modelStoreA).2.filter (fun c => decide (c.ref = 1)) = [⟨1, 5, 42⟩]
    ∧ (wasmtime_store_gc modelStoreA).2.filter (fun c => decide (c.ref = 2)) = []
    ∧ (2, ⟨10, some 6⟩) ∈ (wasmtime_store_gc modelStoreA).1.externrefs
    ∧ (wasmtime_store_gc (wasmtime_store_gc modelStoreA).1).2 = []
    ∧ modelStoreB ∈ wasmtime_store_gc_all [modelStoreA, modelStoreB] 0 :=
  ⟨(store_gc_finalizes_unreachable_exactly_once modelStoreA 1 ⟨42, some 5⟩ 5
      (by decide) (by decide)).1 (by decide) rfl,
   ((store_gc_finalizes_unreachable_exactly_once modelStoreA 2 ⟨10, some 6⟩ 6
      (by decide) (by decide)).2.1 (by decide)).1,
   ((store_gc_finalizes_unreachable_exactly_once modelStoreA 2 ⟨10, some 6⟩ 6
      (by decide) (by decide)).2.1 (by decide)).2,
   (store_gc_finalizes_unreachable_exactly_once modelStoreA 1 ⟨42, some 5⟩ 5
      (by decide) (by decide)).2.2.1,
   (store_gc_finalizes_unreachable_exactly_once modelStoreA 1 ⟨42, some 5⟩ 5
      (by decide) (by decide)).2.2.2 [modelStoreA, modelStoreB] 0 modelStoreB
      (by decide) (by decide)⟩
